import Mathlib

/-!
Shallow embedding of `src/twoYaxis/src/visual.ts` (a Power BI bar+line visual).

JavaScript `undefined` is modelled by `Option.none`; JS numbers by `ℚ`
(the program performs only +, -, *, /, `Math.floor`, `Math.round` and
comparisons on them); a thrown `TypeError` is modelled by `Except.error`
carrying the instance state at the moment of the throw.  DOM mutations are
modelled by a record `VState` of the attributes the code sets: since every
d3 call the code makes (axis `call`, attr, data join) rewrites the affected
subtree as a deterministic function of its arguments, storing those
arguments is a faithful abstraction of the resulting element tree.
-/

/-- One column of `dataView.categorical.categories`: its `source` metadata
(truthiness only is consulted) and its `values` array. -/
structure CategoryColumn where
  source : Bool
  values : List (Option String)
deriving DecidableEq

/-- One column of `dataView.categorical.values`. -/
structure ValueColumn where
  values : List (Option ℚ)
deriving DecidableEq

/-- `dataView.categorical`; both members can be absent. -/
structure Categorical where
  categories : Option (List CategoryColumn)
  values : Option (List ValueColumn)
deriving DecidableEq

/-- One element of `options.dataViews`; `metadata` is consulted only for
truthiness. -/
structure DataView where
  categorical : Option Categorical
  metadata : Bool
deriving DecidableEq

/-- `interface BarPoint { category: string; value: number }` (the `LinePoint`
interface in the source is identical).  Either field can be `undefined` when
an index ran past the end of its source array. -/
structure BarPoint where
  category : Option String
  value : Option ℚ
deriving DecidableEq

/-- `interface BarModel { dataPoints: BarPoint[]; maxValue: number }`; the
source assigns `d3.max`'s result to `maxValue`, which is `undefined` for an
empty array, hence `Option ℚ`. -/
structure BarModel where
  dataPoints : List BarPoint
  maxValue : Option ℚ
deriving DecidableEq

/-- The default model literal built at the top of `setViewModel`:
`{ dataPoints: [], maxValue: 0 }`. -/
def emptyModel : BarModel := { dataPoints := [], maxValue := some 0 }

/-- JS array indexing `l[i]` on an array of possibly-undefined entries:
out of bounds collapses to `undefined`. -/
def jsGet {α : Type} (l : List (Option α)) (i : ℕ) : Option α :=
  (l.get? i).join

/-- One step of d3 v3's `d3.max` accumulator: `undefined` accessor results
are skipped, otherwise the larger value is kept (`if (b > a) a = b`). -/
def d3maxStep (a b : Option ℚ) : Option ℚ :=
  match b with
  | none => a
  | some v =>
    match a with
    | none => some v
    | some a0 => some (if a0 < v then v else a0)

/-- `d3.max(array, accessor)` over our value space: the maximum of the
defined entries, `undefined` when there is none. -/
def d3max (l : List (Option ℚ)) : Option ℚ :=
  l.foldl d3maxStep none

/-- The per-series loop of `setViewModel` (lines 129-135 and 139-145 are
textually identical up to renaming): `len = Math.max(categories.values.length,
values.values.length)`, push `{category: categories.values[i], value:
values.values[i]}` for each `i < len`, then `maxValue = d3.max(...)`. -/
def buildSeries (c : CategoryColumn) (v : ValueColumn) : BarModel :=
  let n := max c.values.length v.values.length
  let pts := (List.range n).map (fun i => BarPoint.mk (jsGet c.values i) (jsGet v.values i))
  { dataPoints := pts, maxValue := d3max (pts.map (fun d => d.value)) }

/-- The two instance fields `this.barModel`, `this.lineModel`; `none` before
their first assignment. -/
structure Models where
  barModel : Option BarModel
  lineModel : Option BarModel
deriving DecidableEq

/-- The control-flow outcome of `setViewModel`, which depends only on the
data view (the method reads no instance state):
* `earlyReturn`: some guard clause of lines 114-120 was truthy-false and the
  method returned the default bar model without assigning anything;
* `throwNoAssign`: a `TypeError` before any field assignment — either
  `categories[0].source` with an empty `categories` array (line 118) or
  `barValues.values` with an empty `values` array (line 129);
* `throwAfterBar bm`: `this.barModel` was assigned `bm` (line 136), then
  `lineValues.values` threw because `values[1]` is `undefined` (line 139);
* `complete bm lm`: both models built and assigned. -/
inductive SvmOutcome where
  | earlyReturn : SvmOutcome
  | throwNoAssign : SvmOutcome
  | throwAfterBar : BarModel → SvmOutcome
  | complete : BarModel → BarModel → SvmOutcome
deriving DecidableEq

/-- Guard and build logic of `setViewModel` (lines 102-147), in the source's
evaluation order: `!dv`, `!dv[0]`, `!dv[0].categorical`,
`!dv[0].categorical.categories`, `!dv[0].categorical.categories[0].source`,
`!dv[0].categorical.values`, `!dv[0].metadata`; then the bar loop over
`values[0]` and the line loop over `values[1]`. -/
def svmRun (dv : Option (List DataView)) : SvmOutcome :=
  match dv with
  | none => .earlyReturn
  | some l =>
    match l.head? with
    | none => .earlyReturn
    | some dv0 =>
      match dv0.categorical with
      | none => .earlyReturn
      | some view =>
        match view.categories with
        | none => .earlyReturn
        | some cats =>
          match cats.head? with
          | none => .throwNoAssign
          | some c0 =>
            if c0.source = false then .earlyReturn
            else
              match view.values with
              | none => .earlyReturn
              | some vals =>
                if dv0.metadata = false then .earlyReturn
                else
                  match vals.head? with
                  | none => .throwNoAssign
                  | some v0 =>
                    match vals.get? 1 with
                    | none => .throwAfterBar (buildSeries c0 v0)
                    | some v1 => .complete (buildSeries c0 v0) (buildSeries c0 v1)

/-- `setViewModel` as a state transformer on the two model fields.  The
`.ok` payload is the new state together with the method's return value
(`some emptyModel` on the early-return path, `undefined` i.e. `none` when the
method runs to completion); `.error` carries the state at the throw. -/
def setViewModel (st : Models) (dv : Option (List DataView)) :
    Except Models (Models × Option BarModel) :=
  match svmRun dv with
  | .earlyReturn => .ok (st, some emptyModel)
  | .throwNoAssign => .error st
  | .throwAfterBar bm => .error { st with barModel := some bm }
  | .complete bm lm => .ok ({ barModel := some bm, lineModel := some lm }, none)

/-! ## The renderer (`update`, lines 149-280) -/

/-- `this.settings.padding` and `this.barGap`. -/
def padTop : ℚ := 30

def padRight : ℚ := 50

def padBottom : ℚ := 50

def padLeft : ℚ := 30

def barGap : ℚ := 3 / 10

/-- JS `Math.round`: round half toward positive infinity. -/
def jsRound (q : ℚ) : ℤ := Int.floor (q + 1 / 2)

/-- The d3 v3 ordinal scale after `.domain(...).rangeRoundBands(...)`:
its (deduplicated, first-seen order) domain, the rounded band start
positions, and the band width. -/
structure OrdScale where
  domain : List (Option String)
  positions : List ℚ
  rangeBand : ℚ
deriving DecidableEq

/-- d3 v3 `ordinal.domain`: duplicates collapse, first occurrence order. -/
def dedupeFS (l : List (Option String)) : List (Option String) :=
  l.foldl (fun acc c => if c ∈ acc then acc else acc ++ [c]) []

/-- d3 v3 `ordinal.rangeRoundBands([x0, x1], padding)` (outer padding
defaults to `padding`): `step = floor((stop-start)/(n - p + 2p))`,
`error = stop - start - (n - p) * step`, band `i` starts at
`start + round(error/2) + i*step`, `rangeBand = round(step*(1-p))`. -/
def mkOrdScale (dom : List (Option String)) (x0 x1 pad : ℚ) : OrdScale :=
  let start := if x1 < x0 then x1 else x0
  let stop := if x1 < x0 then x0 else x1
  let n : ℚ := (dom.length : ℚ)
  let step : ℤ := Int.floor ((stop - start) / (n - pad + 2 * pad))
  let err : ℚ := stop - start - (n - pad) * (step : ℚ)
  let s0 : ℚ := start + (jsRound (err / 2) : ℚ)
  let pos : List ℚ := (List.range dom.length).map (fun i => s0 + (step : ℚ) * (i : ℚ))
  { domain := dom
    positions := if x1 < x0 then pos.reverse else pos
    rangeBand := ((jsRound ((step : ℚ) * (1 - pad)) : ℤ) : ℚ) }

/-- Applying the ordinal scale: position of the band of `c`, `undefined`
for a key outside the domain (v3 with `rangeRoundBands` does not extend the
domain on lookup). -/
def ordApply (s : OrdScale) (c : Option String) : Option ℚ :=
  match s.domain.findIdx? (fun x => x == c) with
  | some i => s.positions.get? i
  | none => none

/-- d3 v3 `d3_uninterpolateNumber(a, b)`: the divisor `b - a` is replaced by
`1/(b-a)` (i.e. `Infinity`) when zero, so a degenerate domain maps every
finite input to `0`. -/
def d3uninterp (a b x : ℚ) : ℚ :=
  if b - a = 0 then 0 else (x - a) / (b - a)

/-- A d3 v3 linear scale with domain `[0, dmax]` and range `[r0, r1]`,
applied to a possibly-undefined input.  An `undefined` domain bound or input
yields `NaN` in JS, modelled as `none`. -/
def linApply (dmax : Option ℚ) (r0 r1 : ℚ) (x : Option ℚ) : Option ℚ :=
  match dmax, x with
  | some m, some v => some (r0 + d3uninterp 0 m v * (r1 - r0))
  | _, _ => none

/-- Attributes set on one bar rectangle (lines 257-262). -/
structure BarAttr where
  width : ℚ
  height : Option ℚ
  y : Option ℚ
  x : Option ℚ
deriving DecidableEq

/-- The x-axis group after `.call(xAxis)` and the transform of line 206:
the rendered ticks are a deterministic function of the scale. -/
structure XAxisRender where
  scale : OrdScale
  transformY : ℚ
deriving DecidableEq

/-- A y-axis group after `.call(axis)`: the linear scale's domain maximum
and range, plus the group's translation. -/
structure YAxisRender where
  domainMax : Option ℚ
  r0 : ℚ
  r1 : ℚ
  translateX : ℚ
deriving DecidableEq

/-- The line `path` of lines 273-279: translated by half a band width, with
`d` the cardinal interpolation through the listed `(x, y)` points — the path
string is a deterministic function of those points. -/
structure LineAttr where
  offset : ℚ
  pathPoints : List (Option ℚ × Option ℚ)
deriving DecidableEq

/-- The visual's retained state: the two model fields plus the attribute
state of the svg and of each retained group. -/
structure VState where
  barModel : Option BarModel
  lineModel : Option BarModel
  svgSize : Option (ℚ × ℚ)
  xAxisR : Option XAxisRender
  yAxisLeftR : Option YAxisRender
  yAxisRightR : Option YAxisRender
  bars : List BarAttr
  linePath : Option LineAttr
deriving DecidableEq

/-- State right after the constructor: no models, empty groups. -/
def initState : VState :=
  { barModel := none, lineModel := none, svgSize := none, xAxisR := none,
    yAxisLeftR := none, yAxisRightR := none, bars := [], linePath := none }

/-- `xScale` of lines 161-163: ordinal scale over the bar model's categories
with range `[left, width - right]` and gap `barGap`. -/
def xScaleOf (bm : BarModel) (w : ℚ) : OrdScale :=
  mkOrdScale (dedupeFS (bm.dataPoints.map (fun d => d.category))) padLeft (w - padRight) barGap

/-- Attributes bound to one bar (lines 257-261): `width = rangeBand`,
`height = height - yScaleLeft(value) - bottom`, `y = yScaleLeft(value)`,
`x = xScale(category)`. -/
def mkBarAttr (xs : OrdScale) (mv : Option ℚ) (h : ℚ) (d : BarPoint) : BarAttr :=
  let yv := linApply mv (h - padBottom) padTop d.value
  { width := xs.rangeBand
    height := yv.map (fun y0 => h - y0 - padBottom)
    y := yv
    x := ordApply xs d.category }

/-- Lines 156-279 of `update` once both models are known to be present:
scales, svg size, the three axes, the bar data join (enter/update/exit with
every attribute rewritten on the merged selection, so the final rectangles
are exactly one per data point), and the replaced line path. -/
def draw (st : VState) (bm lm : BarModel) (w h : ℚ) : VState :=
  let xs := xScaleOf bm w
  { st with
    svgSize := some (w, h)
    xAxisR := some { scale := xs, transformY := h - padBottom }
    yAxisLeftR := some { domainMax := bm.maxValue, r0 := h - padBottom, r1 := padTop,
                         translateX := padLeft }
    yAxisRightR := some { domainMax := lm.maxValue, r0 := h - padBottom, r1 := padTop,
                          translateX := w - padRight }
    bars := bm.dataPoints.map (mkBarAttr xs bm.maxValue h)
    linePath := some { offset := xs.rangeBand / 2
                       pathPoints := lm.dataPoints.map
                         (fun d => (ordApply xs d.category,
                                    linApply lm.maxValue (h - padBottom) padTop d.value)) } }

/-- The rendering part of `update`: `this.barModel.dataPoints` is read at
line 162 (a `TypeError` when the field was never assigned) and
`this.lineModel.maxValue` at line 181, both before any DOM mutation
(the first mutation is `svg.attr` at line 197). -/
def renderPost (st : VState) (w h : ℚ) : Except VState VState :=
  match st.barModel with
  | none => .error st
  | some bm =>
    match st.lineModel with
    | none => .error st
    | some lm => .ok (draw st bm lm w h)

/-- Write a `Models` pair back into the instance state. -/
def withModels (st : VState) (m : Models) : VState :=
  { st with barModel := m.barModel, lineModel := m.lineModel }

/-- `update` (lines 149-280): run `setViewModel` (its return value is
discarded, line 154), then render from the instance fields.  A throw
anywhere propagates with the state as mutated so far. -/
def update (st : VState) (dv : Option (List DataView)) (w h : ℚ) :
    Except VState VState :=
  match setViewModel { barModel := st.barModel, lineModel := st.lineModel } dv with
  | .error m => .error (withModels st m)
  | .ok (m, _) => renderPost (withModels st m) w h

/-- The instance state an `update` call leaves behind, whether it returned
normally or threw. -/
def resSt (e : Except VState VState) : VState :=
  match e with
  | .ok s => s
  | .error s => s

/-! ## Concrete data views used by witnesses and counterexamples -/

/-- Category column "A","B","C" with a truthy source. -/
def catCol : CategoryColumn := { source := true, values := [some "A", some "B", some "C"] }

/-- Bar measure column `[1, 5, 2]`. -/
def barCol : ValueColumn := { values := [some 1, some 5, some 2] }

/-- Line measure column `[3, 1, 4]`. -/
def lineCol : ValueColumn := { values := [some 3, some 1, some 4] }

/-- A well-formed data view: three categories, two equal-length measures. -/
def dvGood : Option (List DataView) :=
  some [{ categorical := some { categories := some [catCol], values := some [barCol, lineCol] },
          metadata := true }]

deriving instance DecidableEq for Except

/-- Modelled from the spec: the "true maximum" of a list of numbers —
`none` when the list is empty. -/
def specMax (l : List ℚ) : Option ℚ :=
  match l with
  | [] => none
  | x :: xs => some (xs.foldl max x)

/-- Modelled from the spec: the true maximum of the data points' `value`
fields, ignoring `undefined` entries. -/
def trueMaxOfPoints (pts : List BarPoint) : Option ℚ :=
  specMax (pts.filterMap (fun d => d.value))

/-! ## Helper lemmas -/

lemma withModels_self (st : VState) :
    withModels st { barModel := st.barModel, lineModel := st.lineModel } = st := by
  cases st; rfl

@[simp] lemma draw_barModel (st : VState) (bm lm : BarModel) (w h : ℚ) :
    (draw st bm lm w h).barModel = st.barModel := rfl

@[simp] lemma draw_lineModel (st : VState) (bm lm : BarModel) (w h : ℚ) :
    (draw st bm lm w h).lineModel = st.lineModel := rfl

@[simp] lemma draw_bars (st : VState) (bm lm : BarModel) (w h : ℚ) :
    (draw st bm lm w h).bars = bm.dataPoints.map (mkBarAttr (xScaleOf bm w) bm.maxValue h) := rfl

/-- `draw` reads its base state only through the two model fields. -/
lemma draw_eq_of_models (a b : VState) (bm lm : BarModel) (w h : ℚ)
    (hb : a.barModel = b.barModel) (hl : a.lineModel = b.lineModel) :
    draw a bm lm w h = draw b bm lm w h := by
  cases a; cases b
  simp only at hb hl
  subst hb; subst hl
  rfl

/-- `update` in terms of the outcome of `setViewModel`'s control flow. -/
lemma update_eq (st : VState) (dv : Option (List DataView)) (w h : ℚ) :
    update st dv w h =
      match svmRun dv with
      | .earlyReturn => renderPost st w h
      | .throwNoAssign => .error st
      | .throwAfterBar bm => .error { st with barModel := some bm }
      | .complete bm lm =>
          renderPost { st with barModel := some bm, lineModel := some lm } w h := by
  unfold update setViewModel
  cases hrun : svmRun dv with
  | earlyReturn => simp [withModels_self]
  | throwNoAssign => simp [withModels_self]
  | throwAfterBar bm => simp [withModels]
  | complete bm lm => simp [withModels]

/-- A successful `update` ends in a `draw` from a state whose two model
fields are present. -/
lemma update_ok_shape (st : VState) (dv : Option (List DataView)) (w h : ℚ)
    (st' : VState) (hu : update st dv w h = Except.ok st') :
    ∃ base bm lm, base.barModel = some bm ∧ base.lineModel = some lm ∧
      st' = draw base bm lm w h := by
  rw [update_eq] at hu
  cases hrun : svmRun dv <;> rw [hrun] at hu
  case earlyReturn =>
    unfold renderPost at hu
    cases hb : st.barModel <;> rw [hb] at hu
    · exact absurd hu (by simp)
    · cases hl : st.lineModel <;> rw [hl] at hu
      · exact absurd hu (by simp)
      · exact ⟨st, _, _, hb, hl, (Except.ok.injEq _ _ ▸ hu).symm⟩
  case throwNoAssign => exact absurd hu (by simp)
  case throwAfterBar bm => exact absurd hu (by simp)
  case complete bm lm =>
    refine ⟨{ st with barModel := some bm, lineModel := some lm }, bm, lm, rfl, rfl, ?_⟩
    unfold renderPost at hu
    simp only at hu
    exact (Except.ok.injEq _ _ ▸ hu).symm

@[simp] lemma buildSeries_dataPoints (c : CategoryColumn) (v : ValueColumn) :
    (buildSeries c v).dataPoints =
      (List.range (max c.values.length v.values.length)).map
        (fun i => BarPoint.mk (jsGet c.values i) (jsGet v.values i)) := rfl

lemma buildSeries_length (c : CategoryColumn) (v : ValueColumn) :
    (buildSeries c v).dataPoints.length = max c.values.length v.values.length := by
  simp

lemma buildSeries_get (c : CategoryColumn) (v : ValueColumn) (i : ℕ)
    (hi : i < max c.values.length v.values.length) :
    (buildSeries c v).dataPoints.get? i = some (BarPoint.mk (jsGet c.values i) (jsGet v.values i)) := by
  rw [buildSeries_dataPoints, List.get?_map, List.get?_range hi]
  rfl

lemma buildSeries_get_inv (c : CategoryColumn) (v : ValueColumn) (i : ℕ) (p : BarPoint)
    (hp : (buildSeries c v).dataPoints.get? i = some p) :
    p = BarPoint.mk (jsGet c.values i) (jsGet v.values i) := by
  by_cases hi : i < max c.values.length v.values.length
  · rw [buildSeries_get c v i hi] at hp
    injection hp with h
    exact h.symm
  · rw [buildSeries_dataPoints, List.get?_eq_none.mpr (by simpa using le_of_not_lt hi)] at hp
    exact absurd hp (by simp)


lemma ite_lt_eq_max (a b : ℚ) : (if a < b then b else a) = max a b := by
  rcases lt_or_le a b with hlt | hle
  · rw [if_pos hlt, max_eq_right hlt.le]
  · rw [if_neg (not_lt.mpr hle), max_eq_left hle]

lemma d3max_go (l : List (Option ℚ)) (a : ℚ) :
    l.foldl d3maxStep (some a) = some ((l.filterMap id).foldl max a) := by
  induction l generalizing a with
  | nil => rfl
  | cons b t ih =>
    cases b with
    | none => simpa using ih a
    | some v =>
      rw [List.foldl_cons, show d3maxStep (some a) (some v) = some (max a v) from by
        simp [d3maxStep, ite_lt_eq_max], ih]
      simp [List.filterMap_cons]

/-- `d3.max` computes the maximum of the defined entries (and `undefined`
when there is none). -/
lemma d3max_eq_specMax (l : List (Option ℚ)) :
    d3max l = specMax (l.filterMap id) := by
  induction l with
  | nil => rfl
  | cons b t ih =>
    cases b with
    | none => simpa [d3max, d3maxStep] using ih
    | some v =>
      rw [d3max, List.foldl_cons, show d3maxStep none (some v) = some v from rfl, d3max_go]
      simp [specMax, List.filterMap_cons]

lemma buildSeries_maxValue (c : CategoryColumn) (v : ValueColumn) :
    (buildSeries c v).maxValue = trueMaxOfPoints (buildSeries c v).dataPoints := by
  have h1 : (buildSeries c v).maxValue = d3max ((buildSeries c v).dataPoints.map (fun d => d.value)) := rfl
  rw [h1, d3max_eq_specMax, trueMaxOfPoints]
  congr 1
  rw [List.filterMap_map]
  rfl

/-! ## Claim theorems -/

/-- C1: evaluated at the failing input, the claim is false of the code: on
the first call with `options.dataViews` undefined, `update` throws (reading
`this.barModel.dataPoints` at line 162, since the guard's early return
never assigns `this.barModel`) instead of storing the empty bar model and
rendering zero bars; and after a prior valid call, the same empty data view
redraws the three stale bars rather than zero.  The guard's computed-and-
returned default `{dataPoints: [], maxValue: 0}` is discarded by `update`,
which is the code slip the claim's spec sentence describes as intended
behavior. -/
theorem c1_empty_dataview_update :
    update initState none 400 300 = Except.error initState ∧
    (resSt (update (resSt (update initState dvGood 400 300)) none 400 300)).bars.length = 3 ∧
    (resSt (update (resSt (update initState dvGood 400 300)) none 400 300)).barModel
      = some (buildSeries catCol barCol) :=
  ⟨rfl, by decide, by decide⟩

/-- C9: a data view whose `categorical.categories` is present but an empty
array makes the guard itself dereference `categories[0].source` on an
undefined element: `setViewModel` throws a `TypeError` (state unchanged)
instead of returning the empty default bar model. -/
theorem c9_empty_categories_guard_throws :
    svmRun (some [{ categorical := some { categories := some [], values := some [barCol, lineCol] },
                    metadata := true }]) = SvmOutcome.throwNoAssign ∧
    setViewModel { barModel := none, lineModel := none }
        (some [{ categorical := some { categories := some [], values := some [barCol, lineCol] },
                 metadata := true }])
      = Except.error { barModel := none, lineModel := none } :=
  ⟨rfl, rfl⟩

/-- C10: a data view that passes the validation guard but carries a single
measure column: `setViewModel` assigns the freshly built bar model, then
throws reading `values[1].values` (line 139), leaving the instance
partially updated — bar model new, line model unchanged (here the stale
line model of an earlier call). -/
theorem c10_single_column_partial_update :
    svmRun (some [{ categorical := some { categories := some [catCol], values := some [barCol] },
                    metadata := true }]) = SvmOutcome.throwAfterBar (buildSeries catCol barCol) ∧
    setViewModel { barModel := none, lineModel := some (buildSeries catCol lineCol) }
        (some [{ categorical := some { categories := some [catCol], values := some [barCol] },
                 metadata := true }])
      = Except.error { barModel := some (buildSeries catCol barCol),
                       lineModel := some (buildSeries catCol lineCol) } :=
  ⟨rfl, rfl⟩

/-- C2 counterexample: a data view whose `values` list is missing — an
instance of the claim's hypothesis — on which `setViewModel` throws instead
of returning the empty bar model, because its `categories` array is present
but empty and the `categories[0].source` check precedes the `values`
check. -/
theorem c2_counterexample :
    ({ categories := some [], values := none } : Categorical).values = none ∧
    setViewModel { barModel := none, lineModel := none }
        (some [{ categorical := some { categories := some [], values := none },
                 metadata := true }])
      = Except.error { barModel := none, lineModel := none } :=
  ⟨rfl, rfl⟩

/-- C3 counterexample: `update` does not replace the derived state on every
input: with `dataViews` undefined, a prior three-point line model survives
the call unchanged, while the same input applied to the initial state
leaves the field unassigned and throws — the post-state models depend on
the prior state, not on the input alone. -/
theorem c3_counterexample :
    (resSt (update (resSt (update initState dvGood 400 300)) none 400 300)).lineModel
      = some (buildSeries catCol lineCol) ∧
    (resSt (update initState none 400 300)).lineModel = none ∧
    some (buildSeries catCol lineCol) ≠ (none : Option BarModel) :=
  ⟨by decide, rfl, by decide⟩

/-- C4 counterexample: a data view that passes validation (the guard does
not early-return) but carries a single measure column: `setViewModel`
throws rather than building both series, so the line series never receives
data points of the stated length and an error is raised. -/
theorem c4_counterexample :
    svmRun (some [{ categorical := some { categories := some [catCol], values := some [barCol] },
                    metadata := true }]) ≠ SvmOutcome.earlyReturn ∧
    setViewModel { barModel := none, lineModel := none }
        (some [{ categorical := some { categories := some [catCol], values := some [barCol] },
                 metadata := true }])
      = Except.error { barModel := some (buildSeries catCol barCol), lineModel := none } :=
  ⟨by decide, rfl⟩

lemma update_eq_early (st : VState) (dv : Option (List DataView)) (w h : ℚ)
    (hrun : svmRun dv = SvmOutcome.earlyReturn) :
    update st dv w h = renderPost st w h := by
  rw [update_eq, hrun]

lemma update_eq_noassign (st : VState) (dv : Option (List DataView)) (w h : ℚ)
    (hrun : svmRun dv = SvmOutcome.throwNoAssign) :
    update st dv w h = Except.error st := by
  rw [update_eq, hrun]

lemma update_eq_afterbar (st : VState) (dv : Option (List DataView)) (w h : ℚ) (bm : BarModel)
    (hrun : svmRun dv = SvmOutcome.throwAfterBar bm) :
    update st dv w h = Except.error { st with barModel := some bm } := by
  rw [update_eq, hrun]

lemma update_eq_complete (st : VState) (dv : Option (List DataView)) (w h : ℚ) (bm lm : BarModel)
    (hrun : svmRun dv = SvmOutcome.complete bm lm) :
    update st dv w h
      = Except.ok (draw { st with barModel := some bm, lineModel := some lm } bm lm w h) := by
  rw [update_eq, hrun]
  rfl

/-- Rendering from the state a previous render left behind repeats that
render exactly: `renderPost` reads its input only through the model fields,
which `draw` preserves. -/
lemma renderPost_stable (st : VState) (w h : ℚ) :
    renderPost (resSt (renderPost st w h)) w h = renderPost st w h := by
  unfold renderPost
  cases hb : st.barModel with
  | none => simp [resSt, hb]
  | some bm =>
    cases hl : st.lineModel with
    | none => simp [resSt, hb, hl]
    | some lm =>
      simp only [hb, hl, resSt, draw_barModel, draw_lineModel]
      exact congrArg Except.ok (draw_eq_of_models _ _ bm lm w h (draw_barModel ..) (draw_lineModel ..))

/-- C2 (amended): whenever the data view, its first element, its
categorical section, its first category column's source (the categories
array then being non-empty), its values list, or its metadata is missing —
provided the categories array, when present, is not empty, since an empty
one makes the guard itself throw — `setViewModel` returns the empty bar
model `{dataPoints: [], maxValue: 0}` and assigns neither the bar model nor
the line model (the state is returned unchanged). -/
theorem c2_amended_guard_defaults (st : Models) (dv : Option (List DataView))
    (h :
      dv = none ∨
      dv = some [] ∨
      (∃ d r, dv = some (d :: r) ∧ d.categorical = none) ∨
      (∃ d r view c0 cs, dv = some (d :: r) ∧ d.categorical = some view ∧
        view.categories = some (c0 :: cs) ∧ c0.source = false) ∨
      (∃ d r view, dv = some (d :: r) ∧ d.categorical = some view ∧
        view.values = none ∧ view.categories ≠ some []) ∨
      (∃ d r view, dv = some (d :: r) ∧ d.categorical = some view ∧
        d.metadata = false ∧ view.categories ≠ some [])) :
    setViewModel st dv = Except.ok (st, some emptyModel) := by
  have hrun : svmRun dv = SvmOutcome.earlyReturn := by
    rcases h with rfl | rfl | ⟨d, r, rfl, hc⟩ | ⟨d, r, view, c0, cs, rfl, hc, hcat, hsrc⟩ |
      ⟨d, r, view, rfl, hc, hv, hne⟩ | ⟨d, r, view, rfl, hc, hmd, hne⟩
    · rfl
    · rfl
    · simp [svmRun, hc]
    · simp [svmRun, hc, hcat, hsrc]
    · cases hcat : view.categories with
      | none => simp [svmRun, hc, hcat]
      | some cats =>
        cases cats with
        | nil => exact absurd hcat hne
        | cons c0 cs =>
          cases hsrc : c0.source
          · simp [svmRun, hc, hcat, hsrc]
          · simp [svmRun, hc, hcat, hsrc, hv]
    · cases hcat : view.categories with
      | none => simp [svmRun, hc, hcat]
      | some cats =>
        cases cats with
        | nil => exact absurd hcat hne
        | cons c0 cs =>
          cases hsrc : c0.source
          · simp [svmRun, hc, hcat, hsrc]
          · cases hv : view.values with
            | none => simp [svmRun, hc, hcat, hsrc, hv]
            | some vals => simp [svmRun, hc, hcat, hsrc, hv, hmd]
  simp [setViewModel, hrun]

/-- C2 witness: the amended theorem applied to a missing data view. -/
theorem c2_witness :
    setViewModel { barModel := none, lineModel := none } none
      = Except.ok ({ barModel := none, lineModel := none }, some emptyModel) :=
  c2_amended_guard_defaults { barModel := none, lineModel := none } none (Or.inl rfl)

/-- C3 (amended): a call to `update` fully replaces both stored models and
redraws before returning exactly when its data view passes validation and
supplies at least two measure columns; the resulting state is then
determined by the new data view, the viewport and the prior non-model
fields only — both model fields are overwritten with the freshly built
series.  (On validation failure neither model is reassigned, and with a
single measure column only the bar model is reassigned before the throw —
see the counterexample and C10.) -/
theorem c3_amended_full_replacement (st : VState) (dv : Option (List DataView)) (w h : ℚ)
    (d : DataView) (r : List DataView) (view : Categorical)
    (c0 : CategoryColumn) (cs : List CategoryColumn)
    (v0 v1 : ValueColumn) (vs : List ValueColumn)
    (hdv : dv = some (d :: r)) (hc : d.categorical = some view)
    (hcat : view.categories = some (c0 :: cs)) (hsrc : c0.source = true)
    (hv : view.values = some (v0 :: v1 :: vs)) (hmd : d.metadata = true) :
    update st dv w h
      = Except.ok (draw { st with barModel := some (buildSeries c0 v0),
                                  lineModel := some (buildSeries c0 v1) }
          (buildSeries c0 v0) (buildSeries c0 v1) w h) ∧
    (resSt (update st dv w h)).barModel = some (buildSeries c0 v0) ∧
    (resSt (update st dv w h)).lineModel = some (buildSeries c0 v1) := by
  subst hdv
  have hrun : svmRun (some (d :: r))
      = SvmOutcome.complete (buildSeries c0 v0) (buildSeries c0 v1) := by
    simp [svmRun, hc, hcat, hsrc, hv, hmd]
  have he := update_eq_complete st (some (d :: r)) w h _ _ hrun
  exact ⟨he, by rw [he]; rfl, by rw [he]; rfl⟩

/-- C3 witness: the amended theorem applied to a valid two-column data
view from the initial state. -/
theorem c3_witness :
    update initState dvGood 400 300
      = Except.ok (draw { initState with barModel := some (buildSeries catCol barCol),
                                         lineModel := some (buildSeries catCol lineCol) }
          (buildSeries catCol barCol) (buildSeries catCol lineCol) 400 300) ∧
    (resSt (update initState dvGood 400 300)).barModel = some (buildSeries catCol barCol) ∧
    (resSt (update initState dvGood 400 300)).lineModel = some (buildSeries catCol lineCol) :=
  c3_amended_full_replacement initState dvGood 400 300
    { categorical := some { categories := some [catCol], values := some [barCol, lineCol] },
      metadata := true }
    [] { categories := some [catCol], values := some [barCol, lineCol] } catCol [] barCol lineCol []
    rfl rfl rfl rfl rfl rfl

/-- C4 (amended): for every data view that passes validation and whose
values list has at least two measure columns, `setViewModel` completes
without error and each series model's data points have length
`max(len(categories), len(series values))`, point `i` being
`{category: categories[i], value: values[i]}` with a field `undefined` when
`i` exceeds the bounds of its source array; length mismatches raise no
error.  (With fewer than two columns the method instead throws — see the
counterexample.) -/
theorem c4_amended_series_shape (st : Models) (dv : Option (List DataView))
    (d : DataView) (r : List DataView) (view : Categorical)
    (c0 : CategoryColumn) (cs : List CategoryColumn)
    (v0 v1 : ValueColumn) (vs : List ValueColumn)
    (hdv : dv = some (d :: r)) (hc : d.categorical = some view)
    (hcat : view.categories = some (c0 :: cs)) (hsrc : c0.source = true)
    (hv : view.values = some (v0 :: v1 :: vs)) (hmd : d.metadata = true) :
    setViewModel st dv
      = Except.ok ({ barModel := some (buildSeries c0 v0),
                     lineModel := some (buildSeries c0 v1) }, none) ∧
    (buildSeries c0 v0).dataPoints.length = max c0.values.length v0.values.length ∧
    (∀ i, i < max c0.values.length v0.values.length →
      (buildSeries c0 v0).dataPoints.get? i
        = some (BarPoint.mk (jsGet c0.values i) (jsGet v0.values i))) ∧
    (buildSeries c0 v1).dataPoints.length = max c0.values.length v1.values.length ∧
    (∀ i, i < max c0.values.length v1.values.length →
      (buildSeries c0 v1).dataPoints.get? i
        = some (BarPoint.mk (jsGet c0.values i) (jsGet v1.values i))) := by
  subst hdv
  have hrun : svmRun (some (d :: r))
      = SvmOutcome.complete (buildSeries c0 v0) (buildSeries c0 v1) := by
    simp [svmRun, hc, hcat, hsrc, hv, hmd]
  exact ⟨by simp [setViewModel, hrun], buildSeries_length _ _,
    fun i hi => buildSeries_get _ _ i hi, buildSeries_length _ _,
    fun i hi => buildSeries_get _ _ i hi⟩

/-- Bar column shorter than the categories (2 values for 3 categories). -/
def barShort : ValueColumn := { values := [some 1, some 5] }

/-- Line column longer than the categories (4 values for 3 categories). -/
def lineLong : ValueColumn := { values := [some 3, some 1, some 4, some 2] }

/-- A valid data view with mismatched column lengths. -/
def dvMismatch : Option (List DataView) :=
  some [{ categorical := some { categories := some [catCol], values := some [barShort, lineLong] },
          metadata := true }]

/-- C4 witness: on mismatched lengths the bar model pads the short measure
with an undefined value and the line model pads the short category side
with an undefined category, without any error. -/
theorem c4_witness :
    setViewModel { barModel := none, lineModel := none } dvMismatch
      = Except.ok ({ barModel := some (buildSeries catCol barShort),
                     lineModel := some (buildSeries catCol lineLong) }, none) ∧
    (buildSeries catCol barShort).dataPoints.get? 2 = some (BarPoint.mk (some "C") none) ∧
    (buildSeries catCol lineLong).dataPoints.get? 3 = some (BarPoint.mk none (some 2)) ∧
    (buildSeries catCol barShort).dataPoints.length = 3 ∧
    (buildSeries catCol lineLong).dataPoints.length = 4 := by
  obtain ⟨h1, h2, h3, h4, h5⟩ := c4_amended_series_shape { barModel := none, lineModel := none }
    dvMismatch
    { categorical := some { categories := some [catCol], values := some [barShort, lineLong] },
      metadata := true }
    [] { categories := some [catCol], values := some [barShort, lineLong] } catCol [] barShort
    lineLong [] rfl rfl rfl rfl rfl rfl
  refine ⟨h1, ?_, ?_, ?_, ?_⟩
  · rw [h3 2 (by decide)]; decide
  · rw [h5 3 (by decide)]; decide
  · rw [h2]; decide
  · rw [h4]; decide

/-- C5: for every series model the builder constructs (`buildSeries` is the
loop body used for both assigned models in `setViewModel`): when its data
points list is non-empty, the stored `maxValue` is the true maximum of the
points' values ignoring `undefined` entries; when the list is empty,
`maxValue` is unset (`undefined`). -/
theorem c5_maxValue_correct (c : CategoryColumn) (v : ValueColumn) :
    ((buildSeries c v).dataPoints ≠ [] →
      (buildSeries c v).maxValue = trueMaxOfPoints (buildSeries c v).dataPoints) ∧
    ((buildSeries c v).dataPoints = [] → (buildSeries c v).maxValue = none) := by
  refine ⟨fun _ => buildSeries_maxValue c v, fun hnil => ?_⟩
  rw [buildSeries_maxValue c v, hnil]
  rfl

/-- Category column with no rows, used for the empty-model case. -/
def emptyCat : CategoryColumn := { source := true, values := [] }

/-- Measure column with no rows. -/
def emptyVal : ValueColumn := { values := [] }

/-- C5 witness: a non-empty build where `maxValue` is the true maximum, and
an empty build where `maxValue` is `undefined`. -/
theorem c5_witness :
    (buildSeries catCol barCol).dataPoints ≠ [] ∧
    (buildSeries catCol barCol).maxValue = trueMaxOfPoints (buildSeries catCol barCol).dataPoints ∧
    (buildSeries catCol barCol).maxValue = some 5 ∧
    (buildSeries emptyCat emptyVal).dataPoints = [] ∧
    (buildSeries emptyCat emptyVal).maxValue = none :=
  ⟨by decide, (c5_maxValue_correct catCol barCol).1 (by decide), by decide, by decide,
   (c5_maxValue_correct emptyCat emptyVal).2 (by decide)⟩

/-- C6: after an update that rebuilds both models (valid data view with two
measure columns), the stored models are built from the same category
column; points at a common index share their category; and for equal-length
category/bar/line inputs of length `n` both models have exactly `n`
points. -/
theorem c6_category_alignment (st : VState) (dv : Option (List DataView)) (w h : ℚ)
    (d : DataView) (r : List DataView) (view : Categorical)
    (c0 : CategoryColumn) (cs : List CategoryColumn)
    (v0 v1 : ValueColumn) (vs : List ValueColumn)
    (hdv : dv = some (d :: r)) (hc : d.categorical = some view)
    (hcat : view.categories = some (c0 :: cs)) (hsrc : c0.source = true)
    (hv : view.values = some (v0 :: v1 :: vs)) (hmd : d.metadata = true) :
    (resSt (update st dv w h)).barModel = some (buildSeries c0 v0) ∧
    (resSt (update st dv w h)).lineModel = some (buildSeries c0 v1) ∧
    (∀ i p q, (buildSeries c0 v0).dataPoints.get? i = some p →
      (buildSeries c0 v1).dataPoints.get? i = some q → p.category = q.category) ∧
    (c0.values.length = v0.values.length → c0.values.length = v1.values.length →
      (buildSeries c0 v0).dataPoints.length = c0.values.length ∧
      (buildSeries c0 v1).dataPoints.length = c0.values.length) := by
  subst hdv
  have hrun : svmRun (some (d :: r))
      = SvmOutcome.complete (buildSeries c0 v0) (buildSeries c0 v1) := by
    simp [svmRun, hc, hcat, hsrc, hv, hmd]
  have he := update_eq_complete st (some (d :: r)) w h _ _ hrun
  refine ⟨by rw [he]; rfl, by rw [he]; rfl, fun i p q hp hq => ?_, fun h0 h1 => ?_⟩
  · rw [buildSeries_get_inv c0 v0 i p hp, buildSeries_get_inv c0 v1 i q hq]
  · constructor
    · rw [buildSeries_length, ← h0, max_self]
    · rw [buildSeries_length, ← h1, max_self]

/-- C6 witness: three equal-length columns give two three-point models with
matching categories at index 1. -/
theorem c6_witness :
    (resSt (update initState dvGood 400 300)).barModel = some (buildSeries catCol barCol) ∧
    (resSt (update initState dvGood 400 300)).lineModel = some (buildSeries catCol lineCol) ∧
    (buildSeries catCol barCol).dataPoints.get? 1 = some (BarPoint.mk (some "B") (some 5)) ∧
    (buildSeries catCol lineCol).dataPoints.get? 1 = some (BarPoint.mk (some "B") (some 1)) ∧
    (BarPoint.mk (some "B") (some 5)).category = (BarPoint.mk (some "B") (some 1)).category ∧
    (buildSeries catCol barCol).dataPoints.length = 3 ∧
    (buildSeries catCol lineCol).dataPoints.length = 3 := by
  obtain ⟨h1, h2, h3, h4⟩ := c6_category_alignment initState dvGood 400 300
    { categorical := some { categories := some [catCol], values := some [barCol, lineCol] },
      metadata := true }
    [] { categories := some [catCol], values := some [barCol, lineCol] } catCol [] barCol lineCol []
    rfl rfl rfl rfl rfl rfl
  refine ⟨h1, h2, by decide, by decide,
    h3 1 (BarPoint.mk (some "B") (some 5)) (BarPoint.mk (some "B") (some 1))
      (by decide) (by decide), ?_, ?_⟩
  · rw [(h4 rfl rfl).1]; decide
  · rw [(h4 rfl rfl).2]; decide

/-- C7: for every bar rendered by a successful `update`, bound to a data
point whose value `v` is defined and lies in `[0, maxValue]` (the left
axis maximum `m` being positive, so the linear scale is non-degenerate):
its width is the horizontal scale's band width, its x is
`horizontalScale(category)`, its top y-coordinate is
`leftScale(v) = (h - padBottom) + (v/m) * (padTop - (h - padBottom))`, and
its height is `h - leftScale(v) - padBottom`; hence `v = 0` yields height
`0` and `v = m` yields height `h - padTop - padBottom`, with `padTop = 30`
and `padBottom = 50`. -/
theorem c7_bar_geometry (st : VState) (dv : Option (List DataView)) (w h : ℚ)
    (st' : VState) (bm : BarModel) (m : ℚ) (i : ℕ) (p : BarPoint) (v : ℚ)
    (hu : update st dv w h = Except.ok st')
    (hbm : st'.barModel = some bm)
    (hm : bm.maxValue = some m) (hmpos : 0 < m)
    (hp : bm.dataPoints.get? i = some p) (hv : p.value = some v)
    (hv0 : 0 ≤ v) (hvm : v ≤ m) :
    st'.bars.get? i = some (mkBarAttr (xScaleOf bm w) bm.maxValue h p) ∧
    (mkBarAttr (xScaleOf bm w) bm.maxValue h p).width = (xScaleOf bm w).rangeBand ∧
    (mkBarAttr (xScaleOf bm w) bm.maxValue h p).x = ordApply (xScaleOf bm w) p.category ∧
    (mkBarAttr (xScaleOf bm w) bm.maxValue h p).y
      = some ((h - padBottom) + v / m * (padTop - (h - padBottom))) ∧
    (mkBarAttr (xScaleOf bm w) bm.maxValue h p).height
      = some (h - ((h - padBottom) + v / m * (padTop - (h - padBottom))) - padBottom) ∧
    (v = 0 → (mkBarAttr (xScaleOf bm w) bm.maxValue h p).height = some 0) ∧
    (v = m → (mkBarAttr (xScaleOf bm w) bm.maxValue h p).height
      = some (h - padTop - padBottom)) ∧
    padTop = 30 ∧ padBottom = 50 := by
  obtain ⟨base, bm0, lm0, hb, hl, rfl⟩ := update_ok_shape st dv w h st' hu
  rw [draw_barModel, hb] at hbm
  have hbmE : bm = bm0 := by injection hbm with h2; exact h2.symm
  subst hbmE
  have hy : linApply bm.maxValue (h - padBottom) padTop p.value
      = some ((h - padBottom) + v / m * (padTop - (h - padBottom))) := by
    rw [hm, hv]
    simp [linApply, d3uninterp, sub_zero, hmpos.ne']
  have hH : (mkBarAttr (xScaleOf bm w) bm.maxValue h p).height
      = some (h - ((h - padBottom) + v / m * (padTop - (h - padBottom))) - padBottom) := by
    simp [mkBarAttr, hy]
  refine ⟨?_, rfl, rfl, by simp [mkBarAttr, hy], hH, fun hz => ?_, fun hvm2 => ?_, rfl, rfl⟩
  · rw [draw_bars, List.get?_map, hp]
    rfl
  · subst hz
    rw [hH]
    congr 1
    rw [zero_div]
    ring
  · subst hvm2
    rw [hH]
    congr 1
    rw [div_self hmpos.ne']
    ring

/-- C7 witness: for the sample data view at viewport 400 x 300, the bar at
index 1 carries the maximal value 5 and its rendered height is
`300 - padTop - padBottom = 220`. -/
theorem c7_witness :
    (0 : ℚ) < 5 ∧
    (resSt (update initState dvGood 400 300)).bars.get? 1
      = some (mkBarAttr (xScaleOf (buildSeries catCol barCol) 400)
          (buildSeries catCol barCol).maxValue 300 (BarPoint.mk (some "B") (some 5))) ∧
    (mkBarAttr (xScaleOf (buildSeries catCol barCol) 400)
        (buildSeries catCol barCol).maxValue 300 (BarPoint.mk (some "B") (some 5))).height
      = some (300 - padTop - padBottom) := by
  obtain ⟨h1, _, _, _, _, _, h7, _, _⟩ :=
    c7_bar_geometry initState dvGood 400 300 (resSt (update initState dvGood 400 300))
      (buildSeries catCol barCol) 5 1 (BarPoint.mk (some "B") (some 5)) 5
      rfl (by decide) (by decide) (by decide) (by decide) (by decide) (by decide) (by decide)
  exact ⟨by decide, h1, h7 rfl⟩

/-- C8: calling `update` twice in succession with an identical data view
and viewport produces exactly the final state of a single call — the same
element counts and the same attributes on the svg, the axes, every bar and
the line path (and the same normal or throwing outcome). -/
theorem c8_update_idempotent (st : VState) (dv : Option (List DataView)) (w h : ℚ) :
    update (resSt (update st dv w h)) dv w h = update st dv w h := by
  cases hrun : svmRun dv with
  | earlyReturn =>
    rw [update_eq_early st dv w h hrun]
    rw [update_eq_early (resSt (renderPost st w h)) dv w h hrun]
    exact renderPost_stable st w h
  | throwNoAssign =>
    rw [update_eq_noassign st dv w h hrun]
    show update st dv w h = Except.error st
    exact update_eq_noassign st dv w h hrun
  | throwAfterBar bm =>
    rw [update_eq_afterbar st dv w h bm hrun]
    show update { st with barModel := some bm } dv w h
      = Except.error { st with barModel := some bm }
    rw [update_eq_afterbar { st with barModel := some bm } dv w h bm hrun]
  | complete bm lm =>
    rw [update_eq_complete st dv w h bm lm hrun]
    show update (draw { st with barModel := some bm, lineModel := some lm } bm lm w h) dv w h
      = Except.ok (draw { st with barModel := some bm, lineModel := some lm } bm lm w h)
    rw [update_eq_complete _ dv w h bm lm hrun]
    exact congrArg Except.ok (draw_eq_of_models _ _ bm lm w h rfl rfl)
